import Mathlib

/-!
Verification of the smart-scale measurement pipeline.

Shallow embedding of the core measurement-interpretation pipeline:

* `smart_scale/data_analyzer.py` (`DataAnalyzer`): packet decoding,
  range validation, and the biometric formula engine.  Python floats are
  modelled as rationals (`ℚ`); Python's float division, which raises
  `ZeroDivisionError` on a zero divisor, is modelled by `pydiv` returning
  `Option ℚ`, and an uncaught division error surfaces as the `zeroDiv`
  outcome of `analyze`.
* `smart_scale/user_identifier.py` (`UserIdentifier`): per-user weight
  statistics and the statistical attribution step.
* `smart_scale/user_manager.py` (`UserManager.calculate_age`): birthdate
  parsing (Python `strptime` with format string percent-Y-percent-m-percent-d,
  modelled by `parseDate`) and age computation.
* `smart_scale/main.py` (`process_measurement`): one measurement cycle,
  with the scanner, profile repository and user identifier injected as
  parameters, exactly as the Python function receives its collaborators.
-/

/-! ### Rounding and clamping helpers -/

/-- Round to the nearest integer, ties to even — the rounding used by
Python's built-in `round`. -/
def roundHalfEven (x : ℚ) : ℤ :=
  let f := ⌊x⌋
  let d := x - f
  if d < 1/2 then f
  else if 1/2 < d then f + 1
  else if f % 2 = 0 then f else f + 1

/-- Python's `round(x, 2)`: round to two decimal places. -/
def round2 (x : ℚ) : ℚ := (roundHalfEven (x * 100) : ℚ) / 100

/-- `DataAnalyzer.checkValueOverflow`: clamp `value` to `[minimum, maximum]`. -/
def checkValueOverflow (value minimum maximum : ℚ) : ℚ :=
  if value < minimum then minimum
  else if value > maximum then maximum
  else value

/-- Python float division: raises `ZeroDivisionError` on a zero divisor,
modelled as `none`. -/
def pydiv (a b : ℚ) : Option ℚ := if b = 0 then none else some (a / b)

/-! ### Packet decoding (`DataAnalyzer.analyze`, lines 22-23) -/

/-- `self.impedance = ((data[10] & 0xFF) << 8) | (data[9] & 0xFF)`. -/
def decodeImpedance (data : List ℕ) : ℕ :=
  ((data.getD 10 0 &&& 255) <<< 8) ||| (data.getD 9 0 &&& 255)

/-- The raw 16-bit weight `((data[12] & 0xFF) << 8) | (data[11] & 0xFF)`. -/
def decodeWeightRaw (data : List ℕ) : ℕ :=
  ((data.getD 12 0 &&& 255) <<< 8) ||| (data.getD 11 0 &&& 255)

/-- `self.weight = (((data[12] & 0xFF) << 8) | (data[11] & 0xFF)) / 200.0`. -/
def decodeWeight (data : List ℕ) : ℚ := (decodeWeightRaw data : ℚ) / 200

/-! ### The metrics engine (`DataAnalyzer`) -/

/-- The state of a `DataAnalyzer` instance after decoding: constructor
arguments `height`, `age`, `sex` plus the decoded `weight` and `impedance`.
`sex` is the raw string compared against `"female"`/`"male"`. -/
structure DataAnalyzer where
  height : ℚ
  age : ℚ
  sex : String
  weight : ℚ
  impedance : ℚ
deriving DecidableEq

/-- `DataAnalyzer.getLBMCoefficient`. -/
def getLBMCoefficient (s : DataAnalyzer) : ℚ :=
  s.height * 9.058 / 100 * (s.height / 100) + (s.weight * 0.32 + 12.226)
    - s.impedance * 0.0068 - s.age * 0.0542

/-- `DataAnalyzer.getBMR`. -/
def getBMR (s : DataAnalyzer) : ℚ :=
  let bmr : ℚ :=
    if s.sex = "female" then
      864.6 + s.weight * 10.2036 - s.height * 0.39336 - s.age * 6.204
    else
      877.8 + s.weight * 14.916 - s.height * 0.726 - s.age * 8.976
  let bmr2 : ℚ :=
    if s.sex = "female" ∧ bmr > 2996 then 5000
    else if s.sex = "male" ∧ bmr > 2322 then 5000
    else bmr
  checkValueOverflow bmr2 500 10000

/-- `DataAnalyzer.getFatPercentage`.  The division by `self.weight` is a
Python float division, hence `Option`. -/
def getFatPercentage (s : DataAnalyzer) : Option ℚ :=
  let LBM := getLBMCoefficient s
  let const : ℚ :=
    if s.sex = "female" ∧ s.age ≤ 49 then 9.25
    else if s.sex = "female" ∧ s.age > 49 then 7.25
    else 0.8
  let coefficient : ℚ :=
    if s.sex = "male" ∧ s.weight < 61 then 0.98
    else if s.sex = "female" ∧ s.weight > 60 then
      (if s.height > 160 then 0.96 * 1.03 else 0.96)
    else if s.sex = "female" ∧ s.weight < 50 then
      (if s.height > 160 then 1.02 * 1.03 else 1.02)
    else 1.0
  (pydiv ((LBM - const) * coefficient) s.weight).map (fun q =>
    let fatPercentage := (1 - q) * 100
    checkValueOverflow (if fatPercentage > 63 then 75 else fatPercentage) 5 75)

/-- `DataAnalyzer.getWaterPercentage`.  Note that when the forced branch
fires, the already-computed `coefficient` is applied again to the forced
value `75` before clamping. -/
def getWaterPercentage (s : DataAnalyzer) : Option ℚ :=
  (getFatPercentage s).map (fun fat =>
    let waterPercentage := (100 - fat) * 0.7
    let coefficient : ℚ := if waterPercentage ≤ 50 then 1.02 else 0.98
    let waterPercentage2 : ℚ :=
      if waterPercentage * coefficient ≥ 65 then 75 else waterPercentage
    checkValueOverflow (waterPercentage2 * coefficient) 35 75)

/-- `DataAnalyzer.getBoneMass`. -/
def getBoneMass (s : DataAnalyzer) : ℚ :=
  let base : ℚ := if s.sex = "female" then 0.245691014 else 0.18016894
  let boneMass := (base - getLBMCoefficient s * 0.05158) * (-1)
  let boneMass2 := if boneMass > 2.2 then boneMass + 0.1 else boneMass - 0.1
  let boneMass3 : ℚ :=
    if s.sex = "female" ∧ boneMass2 > 5.1 then 8
    else if s.sex = "male" ∧ boneMass2 > 5.2 then 8
    else boneMass2
  checkValueOverflow boneMass3 0.5 8

/-- `DataAnalyzer.getMuscleMass`. -/
def getMuscleMass (s : DataAnalyzer) : Option ℚ :=
  (getFatPercentage s).map (fun fat =>
    let muscleMass := s.weight - fat * 0.01 * s.weight - getBoneMass s
    let muscleMass2 : ℚ :=
      if s.sex = "female" ∧ muscleMass ≥ 84 then 120
      else if s.sex = "male" ∧ muscleMass ≥ 93.5 then 120
      else muscleMass
    checkValueOverflow muscleMass2 10 120)

/-- `DataAnalyzer.getVisceralFat`.  The two branches containing a division
by a height-dependent subexpression use `pydiv`. -/
def getVisceralFat (s : DataAnalyzer) : Option ℚ :=
  if s.sex = "female" then
    if (13 - s.height * 0.5) * (-1) < s.weight then
      let subsubcalc := ((s.height * 1.45) + (s.height * 0.1158) * s.height) - 120
      (pydiv (s.weight * 500) subsubcalc).map (fun subcalc =>
        checkValueOverflow ((subcalc - 6) + s.age * 0.07) 1 50)
    else
      let subcalc := 0.691 + s.height * (-0.0024) + s.height * (-0.0024)
      some (checkValueOverflow
        (((s.height * 0.027) - subcalc * s.weight) * (-1) + s.age * 0.07 - s.age) 1 50)
  else
    if s.height < s.weight * 1.6 then
      let subcalc := ((s.height * 0.4) - s.height * (s.height * 0.0826)) * (-1)
      (pydiv (s.weight * 305) (subcalc + 48)).map (fun q =>
        checkValueOverflow (q - 2.9 + s.age * 0.15) 1 50)
    else
      let subcalc := 0.765 + s.height * (-0.0015)
      some (checkValueOverflow
        (((s.height * 0.143) - s.weight * subcalc) * (-1) + s.age * 0.15 - 5.0) 1 50)

/-- `DataAnalyzer.getBMI`: `weight / ((height/100) * (height/100))`. -/
def getBMI (s : DataAnalyzer) : Option ℚ :=
  (pydiv s.weight ((s.height / 100) * (s.height / 100))).map (fun q =>
    checkValueOverflow q 10 90)

/-- `DataAnalyzer.getIdealWeight` (unclamped). -/
def getIdealWeight (s : DataAnalyzer) : ℚ :=
  if s.sex = "female" then (s.height - 70) * 0.6 else (s.height - 80) * 0.7

/-- `DataAnalyzer.getMetabolicAge`. -/
def getMetabolicAge (s : DataAnalyzer) : ℚ :=
  checkValueOverflow
    (if s.sex = "female" then
      s.height * (-1.1165) + s.weight * 1.5784 + s.age * 0.4615
        + s.impedance * 0.0415 + 83.2548
    else
      s.height * (-0.7471) + s.weight * 0.9161 + s.age * 0.4184
        + s.impedance * 0.0517 + 54.2267) 15 80

/-- The metrics dictionary built by `DataAnalyzer.calculate_metrics`,
fields in the dictionary's key order. -/
structure Metrics where
  weight : ℚ
  impedance : ℚ
  lbm : ℚ
  fat_percentage : ℚ
  water_percentage : ℚ
  bone_mass : ℚ
  muscle_mass : ℚ
  visceral_fat : ℚ
  bmi : ℚ
  bmr : ℚ
  ideal_weight : ℚ
  metabolic_age : ℚ
deriving DecidableEq

/-- `DataAnalyzer.calculate_metrics`.  A `ZeroDivisionError` raised by any
getter propagates, collapsing to `none`. -/
def calculate_metrics (s : DataAnalyzer) : Option Metrics :=
  match getFatPercentage s with
  | none => none
  | some fat =>
    match getWaterPercentage s with
    | none => none
    | some water =>
      match getMuscleMass s with
      | none => none
      | some muscle =>
        match getVisceralFat s with
        | none => none
        | some visceral =>
          match getBMI s with
          | none => none
          | some bmi =>
            some {
              weight := round2 s.weight
              impedance := s.impedance
              lbm := round2 (getLBMCoefficient s)
              fat_percentage := round2 fat
              water_percentage := round2 water
              bone_mass := round2 (getBoneMass s)
              muscle_mass := round2 muscle
              visceral_fat := round2 visceral
              bmi := round2 bmi
              bmr := round2 (getBMR s)
              ideal_weight := round2 (getIdealWeight s)
              metabolic_age := round2 (getMetabolicAge s) }

/-- Outcome of `DataAnalyzer.analyze`: a metrics dictionary, a `None`
return (failed validation, including a short packet), or an uncaught
`ZeroDivisionError`. -/
inductive AnalyzeResult where
  | metrics (m : Metrics)
  | invalid
  | zeroDiv
deriving DecidableEq

/-- `true` exactly when the analysis produced a metrics dictionary. -/
def AnalyzeResult.isMetrics : AnalyzeResult → Bool
  | .metrics _ => true
  | _ => false

/-- The `water_percentage` entry of an analysis result, if any. -/
def AnalyzeResult.waterPct : AnalyzeResult → Option ℚ
  | .metrics m => some m.water_percentage
  | _ => none

/-- `DataAnalyzer.analyze` for a non-`None` packet: length check, decode,
range validation in source order, then `calculate_metrics`. -/
def analyze (height age : ℚ) (sex : String) (data : List ℕ) : AnalyzeResult :=
  if data.length < 13 then .invalid
  else if height > 220 then .invalid
  else if decodeWeight data < 10 ∨ decodeWeight data > 200 then .invalid
  else if age > 99 then .invalid
  else if (decodeImpedance data : ℚ) > 3000 then .invalid
  else
    match calculate_metrics
      ⟨height, age, sex, decodeWeight data, (decodeImpedance data : ℚ)⟩ with
    | some m => .metrics m
    | none => .zeroDiv

/-! ### Configuration defaults (`smart_scale/config.py`) -/

/-- `config.DEFAULT_HEIGHT = 180`. -/
def DEFAULT_HEIGHT : ℚ := 180

/-- `config.DEFAULT_AGE = 30`. -/
def DEFAULT_AGE : ℚ := 30

/-- `config.DEFAULT_SEX = "male"`. -/
def DEFAULT_SEX : String := "male"

/-- `config.DEFAULT_USER = "Default User"`. -/
def DEFAULT_USER : String := "Default User"

/-! ### Birthdate parsing and age (`UserManager.calculate_age`)

`datetime.datetime.strptime(birthdate, "%Y-%m-%d").date()` accepts exactly a
four-digit year, a one- or two-digit month in `1..12` and a one- or two-digit
day in `1..31`, separated by dashes and consuming the whole string, and then
`datetime.date` validation requires the year to be at least 1 and the day to
fit the month (Gregorian leap years).  A failed parse raises `ValueError`,
modelled as `none`. -/

/-- A calendar date as used by `datetime.date`. -/
structure PDate where
  year : ℕ
  month : ℕ
  day : ℕ
deriving DecidableEq

/-- Gregorian leap-year test. -/
def isLeap (y : ℕ) : Bool := y % 4 = 0 && (y % 100 != 0 || y % 400 = 0)

/-- Number of days of month `m` in year `y`. -/
def daysInMonth (y m : ℕ) : ℕ :=
  if m = 2 then (if isLeap y then 29 else 28)
  else if m = 4 ∨ m = 6 ∨ m = 9 ∨ m = 11 then 30
  else 31

/-- Split a character list at every dash. -/
def splitDash : List Char → List (List Char)
  | [] => [[]]
  | c :: cs =>
    if c = '-' then [] :: splitDash cs
    else
      match splitDash cs with
      | [] => [[c]]
      | p :: ps => (c :: p) :: ps

/-- Decimal value of a digit list. -/
def digitsVal (l : List Char) : ℕ :=
  l.foldl (fun a c => 10 * a + (c.toNat - 48)) 0

/-- Python `datetime.datetime.strptime(s, "%Y-%m-%d").date()`, returning
`none` where Python raises `ValueError`. -/
def parseDate (s : String) : Option PDate :=
  match splitDash s.data with
  | [ys, ms, ds] =>
    if ys.length = 4 ∧ ys.all Char.isDigit
        ∧ 1 ≤ ms.length ∧ ms.length ≤ 2 ∧ ms.all Char.isDigit
        ∧ 1 ≤ ds.length ∧ ds.length ≤ 2 ∧ ds.all Char.isDigit then
      let y := digitsVal ys
      let m := digitsVal ms
      let d := digitsVal ds
      if 1 ≤ y ∧ 1 ≤ m ∧ m ≤ 12 ∧ 1 ≤ d ∧ d ≤ daysInMonth y m then
        some ⟨y, m, d⟩
      else none
    else none
  | _ => none

/-- `UserManager.calculate_age(birthdate)` relative to `today`: year
difference, minus one if the birthday has not yet occurred this year
(Python's lexicographic tuple comparison `(month, day) < (month, day)`),
clamped below by 0; `0` on a `ValueError` from parsing. -/
def calculate_age (today : PDate) (birthdate : String) : ℤ :=
  match parseDate birthdate with
  | none => 0
  | some b =>
    let age : ℤ := (today.year : ℤ) - (b.year : ℤ)
    let age2 : ℤ :=
      if today.month < b.month ∨ (today.month = b.month ∧ today.day < b.day)
      then age - 1 else age
    max 0 age2

/-! ### User profiles and one measurement cycle (`process_measurement`) -/

/-- A user profile record as read back from `users.json`: the fields
`process_measurement` uses.  `birthdate` is present on new-format profiles;
legacy profiles carry `age` instead (`user_profile.get("age", DEFAULT_AGE)`). -/
structure UserProfile where
  display_name : String
  height : ℤ
  sex : String
  birthdate : Option String
  age : Option ℤ
deriving DecidableEq

/-- The age used for the personalized re-analysis (main.py lines 39-44). -/
def resolveAge (today : PDate) (p : UserProfile) : ℤ :=
  match p.birthdate with
  | some bd => calculate_age today bd
  | none => p.age.getD 30

/-- Result of one `process_measurement` call: a normal return carrying the
new cache value and the record appended to the CSV (if any), or an uncaught
exception propagating out of the call. -/
inductive PMOutcome where
  | ret (newCache : Option (List ℕ)) (saved : Option (Metrics × String))
  | raise
deriving DecidableEq

/-- `process_measurement` (main.py lines 10-75).  The scanner result `raw`,
the identifier `identify` (`UserIdentifier.identify_user`), the reloaded
profile repository `getUser` (`UserManager.get_user`) and today's date are
the injected collaborators; `cache` is `last_raw_data_cache`.  An empty
byte string is falsy in Python, like `None`. -/
def process_measurement (identify : ℚ → String)
    (getUser : String → Option UserProfile) (today : PDate)
    (raw : Option (List ℕ)) (cache : Option (List ℕ)) : PMOutcome :=
  match raw with
  | none => .ret cache none
  | some d =>
    if d = [] then .ret cache none
    else if some d = cache then .ret cache none
    else
      match analyze DEFAULT_HEIGHT DEFAULT_AGE DEFAULT_SEX d with
      | .invalid => .ret cache none
      | .zeroDiv => .raise
      | .metrics temp =>
        let username := identify temp.weight
        match getUser username with
        | none => .ret (some d) (some (temp, username))
        | some p =>
          match analyze (p.height : ℚ) ((resolveAge today p : ℤ) : ℚ) p.sex d with
          | .invalid => .ret cache none
          | .zeroDiv => .raise
          | .metrics m => .ret (some d) (some (m, username))

/-! ### User attribution (`UserIdentifier`) -/

/-- A parsed history row: the `USER_NAME` and `weight` columns of one CSV
record. -/
structure Row where
  username : String
  weight : ℚ
deriving DecidableEq

/-- The weights of the rows carrying a given username
(`df[df["USER_NAME"] == username]["weight"]`). -/
def userWeights (history : List Row) (u : String) : List ℚ :=
  (history.filter (fun r => r.username = u)).map (fun r => r.weight)

/-- Arithmetic mean, as computed by pandas `.mean()`. -/
def listMean (xs : List ℚ) : ℚ := xs.sum / (xs.length : ℚ)

/-- Sample variance with one delta degree of freedom, the radicand of
pandas `.std()`. -/
def sampleVar (xs : List ℚ) : ℚ :=
  ((xs.map (fun x => (x - listMean xs) ^ 2)).sum) / ((xs.length : ℚ) - 1)

/-- pandas `.std()`: the square root of the sample variance.  Irrational in
general, hence valued in `ℝ`. -/
noncomputable def sampleStd (xs : List ℚ) : ℝ := Real.sqrt (sampleVar xs)

/-- `UserIdentifier.get_user_stats`, as an insertion-ordered association
list.  A missing CSV file, missing columns or a read error all yield the
default statistics for every username, which coincides with running the
per-user loop on an empty row list, so those branches collapse into the
`history` parameter. -/
noncomputable def get_user_stats (usernames : List String) (history : List Row) :
    List (String × ℚ × ℝ) :=
  let names := if usernames.isEmpty then [DEFAULT_USER] else usernames
  names.map (fun u =>
    let ws := userWeights history u
    if 2 ≤ ws.length then
      let std := sampleStd ws
      (u, listMean ws, if std < 0.1 then 0.1 else std)
    else (u, (70 : ℚ), (5 : ℝ)))

/-- `UserIdentifier.calculate_scores` applied to a given stats mapping:
`scores[user] = abs((weight - mean) / std)`. -/
def calculate_scores (stats : List (String × ℚ × ℚ)) (weight : ℚ) :
    List (String × ℚ) :=
  stats.map (fun p => (p.1, |(weight - p.2.1) / p.2.2|))

/-- Python's `min(items, key=...)` over the remaining items, keeping the
current best on ties (so the first minimal item of the iteration wins). -/
def minBySnd : List (String × ℚ) → (String × ℚ) → (String × ℚ)
  | [], best => best
  | x :: xs, best => minBySnd xs (if x.2 < best.2 then x else best)

/-- `UserIdentifier.identify_user` applied to a given stats mapping:
`DEFAULT_USER` when the score mapping is empty, otherwise the username of
the first minimal score. -/
def identify_user (stats : List (String × ℚ × ℚ)) (weight : ℚ) : String :=
  match calculate_scores stats weight with
  | [] => DEFAULT_USER
  | sc :: rest => (minBySnd rest sc).1

/-! ### Concrete packets used by witnesses and counterexamples -/

/-- A 13-byte packet decoding to weight `80.0` kg and impedance `0`. -/
def dataW80 : List ℕ := [0, 0, 0, 0, 0, 0, 0, 0, 0, 0, 0, 128, 62]

/-- The packet of the specification's decoding example: bytes 9..12 are
`0xF4, 0x01, 0x40, 0x3E`. -/
def dataF4 : List ℕ := [0, 0, 0, 0, 0, 0, 0, 0, 0, 244, 1, 64, 62]

/-- The analyzer state of the water-percentage counterexample: a validated
input (height 220, age 0, male, weight 80, impedance 0). -/
def waterCexState : DataAnalyzer := ⟨220, 0, "male", 80, 0⟩

/-- Two history rows attributed to `"Default User"` with weights 70 and 80,
as the pipeline itself saves them when no profiles exist. -/
def defaultUserRows : List Row := [⟨"Default User", 70⟩, ⟨"Default User", 80⟩]

/-! ### Helper lemmas: clamping and rounding -/

theorem checkValueOverflow_mem (v lo hi : ℚ) (h : lo ≤ hi) :
    lo ≤ checkValueOverflow v lo hi ∧ checkValueOverflow v lo hi ≤ hi := by
  unfold checkValueOverflow
  split_ifs with h1 h2
  · exact ⟨le_refl lo, h⟩
  · exact ⟨h, le_refl hi⟩
  · exact ⟨not_lt.mp h1, not_lt.mp h2⟩

theorem roundHalfEven_ge (n : ℤ) (x : ℚ) (h : (n : ℚ) ≤ x) :
    n ≤ roundHalfEven x := by
  have h1 : n ≤ ⌊x⌋ := Int.le_floor.mpr h
  simp only [roundHalfEven]
  split_ifs <;> omega

theorem roundHalfEven_le (n : ℤ) (x : ℚ) (h : x ≤ (n : ℚ)) :
    roundHalfEven x ≤ n := by
  have h1 : ⌊x⌋ ≤ n := by
    have := Int.floor_le_floor h
    simpa using this
  rcases eq_or_lt_of_le h1 with heq | hlt
  · have hfl : (⌊x⌋ : ℚ) ≤ x := Int.floor_le x
    have hd0 : x - ⌊x⌋ = 0 := by
      have : x ≤ (⌊x⌋ : ℚ) := by rw [heq]; exact_mod_cast h
      linarith
    simp only [roundHalfEven]
    rw [if_pos (by rw [hd0]; norm_num)]
    exact h1
  · simp only [roundHalfEven]
    split_ifs <;> omega

theorem le_round2 (b x : ℚ) (n : ℤ) (hb : b = (n : ℚ) / 100) (h : b ≤ x) :
    b ≤ round2 x := by
  have h1 : (n : ℚ) ≤ x * 100 := by rw [hb] at h; linarith
  have h2 : n ≤ roundHalfEven (x * 100) := roundHalfEven_ge n (x * 100) h1
  have h3 : (n : ℚ) ≤ (roundHalfEven (x * 100) : ℚ) := by exact_mod_cast h2
  rw [hb, round2]
  linarith

theorem round2_le (b x : ℚ) (n : ℤ) (hb : b = (n : ℚ) / 100) (h : x ≤ b) :
    round2 x ≤ b := by
  have h1 : x * 100 ≤ (n : ℚ) := by rw [hb] at h; linarith
  have h2 : roundHalfEven (x * 100) ≤ n := roundHalfEven_le n (x * 100) h1
  have h3 : (roundHalfEven (x * 100) : ℚ) ≤ (n : ℚ) := by exact_mod_cast h2
  rw [hb, round2]
  linarith

/-! ### Helper lemmas: the division subexpressions of the metrics engine -/

/-- The divisor of the male visceral-fat branch is positive for every
rational height. -/
theorem male_visceral_divisor_pos (x : ℚ) :
    0 < ((x * 0.4) - x * (x * 0.0826)) * (-1) + 48 := by
  nlinarith [sq_nonneg (413 * x - 1000)]

/-- The divisor of the female visceral-fat branch never vanishes at an
integer height: `0.1158 h^2 + 1.45 h - 120` has no integer (indeed no
rational) root near its irrational roots `h ≈ -39.06` and `h ≈ 26.46`. -/
theorem female_visceral_divisor_ne (n : ℤ) :
    (((n : ℚ) * 1.45) + ((n : ℚ) * 0.1158) * (n : ℚ)) - 120 ≠ 0 := by
  intro hEq
  have hz : (1158 * n ^ 2 + 14500 * n - 1200000 : ℤ) = 0 := by
    have hcast : ((1158 * n ^ 2 + 14500 * n - 1200000 : ℤ) : ℚ)
        = 10000 * ((((n : ℚ) * 1.45) + ((n : ℚ) * 0.1158) * (n : ℚ)) - 120) := by
      push_cast
      ring
    have : ((1158 * n ^ 2 + 14500 * n - 1200000 : ℤ) : ℚ) = 0 := by
      rw [hcast, hEq, mul_zero]
    exact_mod_cast this
  rcases le_or_lt n (-40) with h | h
  · nlinarith [mul_nonneg (by linarith : (0 : ℤ) ≤ -n - 40) (by linarith : (0 : ℤ) ≤ -n)]
  rcases le_or_lt n 26 with h2 | h2
  · nlinarith [mul_nonneg (by linarith : (0 : ℤ) ≤ n + 39) (by linarith : (0 : ℤ) ≤ 26 - n)]
  · nlinarith [mul_nonneg (by linarith : (0 : ℤ) ≤ n - 27) (by linarith : (0 : ℤ) ≤ n)]


/-! ### Helper lemmas: every getter yields a clamped value -/

theorem getFatPercentage_some (s : DataAnalyzer) (hw : s.weight ≠ 0) :
    ∃ f, getFatPercentage s = some f ∧ 5 ≤ f ∧ f ≤ 75 := by
  simp only [getFatPercentage, pydiv, if_neg hw, Option.map_some']
  exact ⟨_, rfl, (checkValueOverflow_mem _ 5 75 (by norm_num)).1,
    (checkValueOverflow_mem _ 5 75 (by norm_num)).2⟩

theorem getWaterPercentage_some (s : DataAnalyzer) (hw : s.weight ≠ 0) :
    ∃ w, getWaterPercentage s = some w ∧ 35 ≤ w ∧ w ≤ 75 := by
  obtain ⟨f, hf, _, _⟩ := getFatPercentage_some s hw
  simp only [getWaterPercentage, hf, Option.map_some']
  exact ⟨_, rfl, (checkValueOverflow_mem _ 35 75 (by norm_num)).1,
    (checkValueOverflow_mem _ 35 75 (by norm_num)).2⟩

theorem getBoneMass_mem (s : DataAnalyzer) :
    0.5 ≤ getBoneMass s ∧ getBoneMass s ≤ 8 := by
  unfold getBoneMass
  exact checkValueOverflow_mem _ 0.5 8 (by norm_num)

theorem getMuscleMass_some (s : DataAnalyzer) (hw : s.weight ≠ 0) :
    ∃ m, getMuscleMass s = some m ∧ 10 ≤ m ∧ m ≤ 120 := by
  obtain ⟨f, hf, _, _⟩ := getFatPercentage_some s hw
  simp only [getMuscleMass, hf, Option.map_some']
  exact ⟨_, rfl, (checkValueOverflow_mem _ 10 120 (by norm_num)).1,
    (checkValueOverflow_mem _ 10 120 (by norm_num)).2⟩

theorem getVisceralFat_some (s : DataAnalyzer)
    (hfem : s.sex = "female" → (13 - s.height * 0.5) * (-1) < s.weight →
      ((s.height * 1.45) + (s.height * 0.1158) * s.height) - 120 ≠ 0) :
    ∃ v, getVisceralFat s = some v ∧ 1 ≤ v ∧ v ≤ 50 := by
  unfold getVisceralFat
  split_ifs with hsex hbr hbr2
  · simp only [pydiv, if_neg (hfem hsex hbr), Option.map_some']
    exact ⟨_, rfl, (checkValueOverflow_mem _ 1 50 (by norm_num)).1,
      (checkValueOverflow_mem _ 1 50 (by norm_num)).2⟩
  · exact ⟨_, rfl, (checkValueOverflow_mem _ 1 50 (by norm_num)).1,
      (checkValueOverflow_mem _ 1 50 (by norm_num)).2⟩
  · simp only [pydiv, if_neg (male_visceral_divisor_pos s.height).ne', Option.map_some']
    exact ⟨_, rfl, (checkValueOverflow_mem _ 1 50 (by norm_num)).1,
      (checkValueOverflow_mem _ 1 50 (by norm_num)).2⟩
  · exact ⟨_, rfl, (checkValueOverflow_mem _ 1 50 (by norm_num)).1,
      (checkValueOverflow_mem _ 1 50 (by norm_num)).2⟩

theorem getBMI_some (s : DataAnalyzer) (hh : s.height ≠ 0) :
    ∃ b, getBMI s = some b ∧ 10 ≤ b ∧ b ≤ 90 := by
  have hd : (s.height / 100) * (s.height / 100) ≠ 0 :=
    mul_ne_zero (div_ne_zero hh (by norm_num)) (div_ne_zero hh (by norm_num))
  simp only [getBMI, pydiv, if_neg hd, Option.map_some']
  exact ⟨_, rfl, (checkValueOverflow_mem _ 10 90 (by norm_num)).1,
    (checkValueOverflow_mem _ 10 90 (by norm_num)).2⟩

theorem getBMR_mem (s : DataAnalyzer) :
    500 ≤ getBMR s ∧ getBMR s ≤ 10000 := by
  unfold getBMR
  exact checkValueOverflow_mem _ 500 10000 (by norm_num)

theorem getMetabolicAge_mem (s : DataAnalyzer) :
    15 ≤ getMetabolicAge s ∧ getMetabolicAge s ≤ 80 := by
  unfold getMetabolicAge
  exact checkValueOverflow_mem _ 15 80 (by norm_num)

/-! ### Helper lemmas: assembling `calculate_metrics` -/

theorem calculate_metrics_eq (s : DataAnalyzer) (f w mm vf bi : ℚ)
    (hf : getFatPercentage s = some f) (hwp : getWaterPercentage s = some w)
    (hm : getMuscleMass s = some mm) (hv : getVisceralFat s = some vf)
    (hb : getBMI s = some bi) :
    calculate_metrics s = some {
      weight := round2 s.weight
      impedance := s.impedance
      lbm := round2 (getLBMCoefficient s)
      fat_percentage := round2 f
      water_percentage := round2 w
      bone_mass := round2 (getBoneMass s)
      muscle_mass := round2 mm
      visceral_fat := round2 vf
      bmi := round2 bi
      bmr := round2 (getBMR s)
      ideal_weight := round2 (getIdealWeight s)
      metabolic_age := round2 (getMetabolicAge s) } := by
  simp only [calculate_metrics, hf, hwp, hm, hv, hb]

theorem calculate_metrics_none_of_bmi (s : DataAnalyzer) (hw : s.weight ≠ 0)
    (hfem : s.sex = "female" → (13 - s.height * 0.5) * (-1) < s.weight →
      ((s.height * 1.45) + (s.height * 0.1158) * s.height) - 120 ≠ 0)
    (hb : getBMI s = none) :
    calculate_metrics s = none := by
  obtain ⟨f, hf, _, _⟩ := getFatPercentage_some s hw
  obtain ⟨w, hwp, _, _⟩ := getWaterPercentage_some s hw
  obtain ⟨mm, hm, _, _⟩ := getMuscleMass_some s hw
  obtain ⟨vf, hv, _, _⟩ := getVisceralFat_some s hfem
  simp only [calculate_metrics, hf, hwp, hm, hv, hb]

/-- All at once: under nonzero weight and height and a non-vanishing female
visceral divisor, `calculate_metrics` succeeds and every clamped metric of
the result lies in its documented range. -/
theorem calculate_metrics_ranges (s : DataAnalyzer) (hw : s.weight ≠ 0)
    (hh : s.height ≠ 0)
    (hfem : s.sex = "female" → (13 - s.height * 0.5) * (-1) < s.weight →
      ((s.height * 1.45) + (s.height * 0.1158) * s.height) - 120 ≠ 0) :
    ∃ m, calculate_metrics s = some m ∧
      5 ≤ m.fat_percentage ∧ m.fat_percentage ≤ 75 ∧
      35 ≤ m.water_percentage ∧ m.water_percentage ≤ 75 ∧
      0.5 ≤ m.bone_mass ∧ m.bone_mass ≤ 8 ∧
      10 ≤ m.muscle_mass ∧ m.muscle_mass ≤ 120 ∧
      1 ≤ m.visceral_fat ∧ m.visceral_fat ≤ 50 ∧
      10 ≤ m.bmi ∧ m.bmi ≤ 90 ∧
      500 ≤ m.bmr ∧ m.bmr ≤ 10000 ∧
      15 ≤ m.metabolic_age ∧ m.metabolic_age ≤ 80 := by
  obtain ⟨f, hf, hf1, hf2⟩ := getFatPercentage_some s hw
  obtain ⟨w, hwp, hw1, hw2⟩ := getWaterPercentage_some s hw
  obtain ⟨mm, hm, hm1, hm2⟩ := getMuscleMass_some s hw
  obtain ⟨vf, hv, hv1, hv2⟩ := getVisceralFat_some s hfem
  obtain ⟨bi, hb, hb1, hb2⟩ := getBMI_some s hh
  refine ⟨_, calculate_metrics_eq s f w mm vf bi hf hwp hm hv hb, ?_, ?_, ?_, ?_, ?_,
    ?_, ?_, ?_, ?_, ?_, ?_, ?_, ?_, ?_, ?_, ?_⟩
  · exact le_round2 5 f 500 (by norm_num) hf1
  · exact round2_le 75 f 7500 (by norm_num) hf2
  · exact le_round2 35 w 3500 (by norm_num) hw1
  · exact round2_le 75 w 7500 (by norm_num) hw2
  · exact le_round2 0.5 (getBoneMass s) 50 (by norm_num) (getBoneMass_mem s).1
  · exact round2_le 8 (getBoneMass s) 800 (by norm_num) (getBoneMass_mem s).2
  · exact le_round2 10 mm 1000 (by norm_num) hm1
  · exact round2_le 120 mm 12000 (by norm_num) hm2
  · exact le_round2 1 vf 100 (by norm_num) hv1
  · exact round2_le 50 vf 5000 (by norm_num) hv2
  · exact le_round2 10 bi 1000 (by norm_num) hb1
  · exact round2_le 90 bi 9000 (by norm_num) hb2
  · exact le_round2 500 (getBMR s) 50000 (by norm_num) (getBMR_mem s).1
  · exact round2_le 10000 (getBMR s) 1000000 (by norm_num) (getBMR_mem s).2
  · exact le_round2 15 (getMetabolicAge s) 1500 (by norm_num) (getMetabolicAge_mem s).1
  · exact round2_le 80 (getMetabolicAge s) 8000 (by norm_num) (getMetabolicAge_mem s).2

/-! ### Helper lemmas: `analyze` on validated input -/

/-- On a packet of length at least 13 with decoded weight in `[10, 200]`
and impedance at most 3000, an integer height that is at most 220 and
nonzero, and age at most 99, `analyze` returns metrics whose clamped
fields lie in their documented ranges. -/
theorem analyze_ranges_aux (hgt : ℤ) (age : ℚ) (sex : String) (data : List ℕ)
    (hlen : 13 ≤ data.length) (hh1 : hgt ≤ 220) (hh0 : hgt ≠ 0)
    (hwlo : 10 ≤ decodeWeight data) (hwhi : decodeWeight data ≤ 200)
    (hage : age ≤ 99) (himp : decodeImpedance data ≤ 3000) :
    ∃ m, analyze (hgt : ℚ) age sex data = .metrics m ∧
      5 ≤ m.fat_percentage ∧ m.fat_percentage ≤ 75 ∧
      35 ≤ m.water_percentage ∧ m.water_percentage ≤ 75 ∧
      0.5 ≤ m.bone_mass ∧ m.bone_mass ≤ 8 ∧
      10 ≤ m.muscle_mass ∧ m.muscle_mass ≤ 120 ∧
      1 ≤ m.visceral_fat ∧ m.visceral_fat ≤ 50 ∧
      10 ≤ m.bmi ∧ m.bmi ≤ 90 ∧
      500 ≤ m.bmr ∧ m.bmr ≤ 10000 ∧
      15 ≤ m.metabolic_age ∧ m.metabolic_age ≤ 80 := by
  have h1 : ¬ data.length < 13 := by omega
  have h2 : ¬ ((hgt : ℚ) > 220) := by
    rw [not_lt]
    exact_mod_cast hh1
  have h3 : ¬ (decodeWeight data < 10 ∨ decodeWeight data > 200) := by
    push_neg
    exact ⟨hwlo, hwhi⟩
  have h4 : ¬ (age > 99) := not_lt.mpr hage
  have h5 : ¬ ((decodeImpedance data : ℚ) > 3000) := by
    rw [not_lt]
    exact_mod_cast himp
  have hwne : decodeWeight data ≠ 0 := by
    intro h0
    rw [h0] at hwlo
    norm_num at hwlo
  have hhne : ((hgt : ℚ)) ≠ 0 := Int.cast_ne_zero.mpr hh0
  obtain ⟨m, hcm, hr⟩ := calculate_metrics_ranges
    ⟨(hgt : ℚ), age, sex, decodeWeight data, (decodeImpedance data : ℚ)⟩
    hwne hhne (fun _ _ => female_visceral_divisor_ne hgt)
  refine ⟨m, ?_, hr⟩
  simp only [analyze, if_neg h1, if_neg h2, if_neg h3, if_neg h4, if_neg h5, hcm]

/-! ### Helper lemmas: Python `min` with key over an association list -/

/-- `minBySnd xs best` is the first entry of `best :: xs` attaining the
minimal score: everything strictly before it in the iteration order scores
strictly higher, and nothing scores lower. -/
theorem minBySnd_decomp (xs : List (String × ℚ)) : ∀ best : String × ℚ,
    ∃ l₁ l₂, best :: xs = l₁ ++ minBySnd xs best :: l₂ ∧
      (∀ q ∈ l₁, (minBySnd xs best).2 < q.2) ∧
      (∀ q ∈ best :: xs, (minBySnd xs best).2 ≤ q.2) := by
  induction xs with
  | nil =>
    intro best
    refine ⟨[], [], rfl, ?_, ?_⟩
    · intro q hq
      simp at hq
    · intro q hq
      simp only [List.mem_singleton] at hq
      subst hq
      exact le_refl _
  | cons x xs ih =>
    intro best
    by_cases hx : x.2 < best.2
    · obtain ⟨l₁, l₂, he, hlt, hle⟩ := ih x
      have hunf : minBySnd (x :: xs) best = minBySnd xs x := by
        simp only [minBySnd, if_pos hx]
      rw [hunf]
      refine ⟨best :: l₁, l₂, ?_, ?_, ?_⟩
      · rw [List.cons_append, ← he]
      · intro q hq
        rcases List.mem_cons.mp hq with hq | hq
        · subst hq
          exact lt_of_le_of_lt (hle x (List.mem_cons_self x xs)) hx
        · exact hlt q hq
      · intro q hq
        rcases List.mem_cons.mp hq with hq | hq
        · subst hq
          exact le_of_lt (lt_of_le_of_lt (hle x (List.mem_cons_self x xs)) hx)
        · exact hle q hq
    · obtain ⟨l₁, l₂, he, hlt, hle⟩ := ih best
      have hunf : minBySnd (x :: xs) best = minBySnd xs best := by
        simp only [minBySnd, if_neg hx]
      rw [hunf]
      cases l₁ with
      | nil =>
        obtain ⟨h1, h2⟩ : best = minBySnd xs best ∧ xs = l₂ := by
          simpa using he
        refine ⟨[], x :: xs, ?_, ?_, ?_⟩
        · rw [List.nil_append, ← h1]
        · intro q hq
          simp at hq
        · intro q hq
          rcases List.mem_cons.mp hq with hq | hq
          · subst hq
            rw [← h1]
          rcases List.mem_cons.mp hq with hq2 | hq2
          · subst hq2
            rw [← h1]
            exact not_lt.mp hx
          · exact hle q (List.mem_cons_of_mem best hq2)
      | cons c t =>
        obtain ⟨h1, h2⟩ : best = c ∧ xs = t ++ minBySnd xs best :: l₂ := by
          simpa using he
        refine ⟨best :: x :: t, l₂, ?_, ?_, ?_⟩
        · simp only [List.cons_append]
          rw [← h2]
        · intro q hq
          have hmb : (minBySnd xs best).2 < best.2 := by
            apply hlt
            rw [h1]
            exact List.mem_cons_self c t
          rcases List.mem_cons.mp hq with hq | hq
          · subst hq
            exact hmb
          rcases List.mem_cons.mp hq with hq2 | hq2
          · subst hq2
            exact lt_of_lt_of_le hmb (not_lt.mp hx)
          · exact hlt q (List.mem_cons_of_mem c hq2)
        · intro q hq
          rcases List.mem_cons.mp hq with hq | hq
          · rw [hq]
            exact hle best (List.mem_cons_self best xs)
          rcases List.mem_cons.mp hq with hq2 | hq2
          · rw [hq2]
            exact le_trans (hle best (List.mem_cons_self best xs)) (not_lt.mp hx)
          · exact hle q (List.mem_cons_of_mem best hq2)

/-! ### Helper lemmas: concrete packets -/

theorem dataW80_weight : decodeWeight dataW80 = 80 := by
  have h : decodeWeightRaw dataW80 = 16000 := by decide
  rw [decodeWeight, h]
  norm_num

theorem dataW80_imp : decodeImpedance dataW80 = 0 := by decide

theorem dataW80_len : dataW80.length = 13 := by decide

theorem dataF4_weight : decodeWeight dataF4 = 1992 / 25 := by
  have h : decodeWeightRaw dataF4 = 15936 := by decide
  rw [decodeWeight, h]
  norm_num

theorem dataF4_imp : decodeImpedance dataF4 = 500 := by decide

/-! ### Claim C1 -/

/-- Claim C1: for every profile with integer `height_cm` in `(0, 220]`,
`age ≤ 99` and sex male or female, and every packet of length at least 13
whose decoded weight lies in `[10, 200]` and decoded impedance is at most
3000, `analyze` succeeds and every clamped metric of the result lies in its
documented clamp range. -/
theorem analyze_clamped_metrics_in_range (hgt : ℤ) (age : ℚ) (sex : String)
    (data : List ℕ) (hh0 : 0 < hgt) (hh1 : hgt ≤ 220) (hage : age ≤ 99)
    (hsex : sex = "male" ∨ sex = "female") (hlen : 13 ≤ data.length)
    (hwlo : 10 ≤ decodeWeight data) (hwhi : decodeWeight data ≤ 200)
    (himp : decodeImpedance data ≤ 3000) :
    ∃ m, analyze (hgt : ℚ) age sex data = .metrics m ∧
      5 ≤ m.fat_percentage ∧ m.fat_percentage ≤ 75 ∧
      35 ≤ m.water_percentage ∧ m.water_percentage ≤ 75 ∧
      0.5 ≤ m.bone_mass ∧ m.bone_mass ≤ 8 ∧
      10 ≤ m.muscle_mass ∧ m.muscle_mass ≤ 120 ∧
      1 ≤ m.visceral_fat ∧ m.visceral_fat ≤ 50 ∧
      10 ≤ m.bmi ∧ m.bmi ≤ 90 ∧
      500 ≤ m.bmr ∧ m.bmr ≤ 10000 ∧
      15 ≤ m.metabolic_age ∧ m.metabolic_age ≤ 80 :=
  analyze_ranges_aux hgt age sex data hlen hh1 (by omega) hwlo hwhi hage himp

/-- Witness for C1 at height 180, age 30, male, and a packet decoding to
weight 80 kg and impedance 0. -/
theorem analyze_clamped_metrics_in_range_witness :
    ∃ m, analyze ((180 : ℤ) : ℚ) 30 "male" dataW80 = .metrics m ∧
      5 ≤ m.fat_percentage ∧ m.fat_percentage ≤ 75 ∧
      35 ≤ m.water_percentage ∧ m.water_percentage ≤ 75 ∧
      0.5 ≤ m.bone_mass ∧ m.bone_mass ≤ 8 ∧
      10 ≤ m.muscle_mass ∧ m.muscle_mass ≤ 120 ∧
      1 ≤ m.visceral_fat ∧ m.visceral_fat ≤ 50 ∧
      10 ≤ m.bmi ∧ m.bmi ≤ 90 ∧
      500 ≤ m.bmr ∧ m.bmr ≤ 10000 ∧
      15 ≤ m.metabolic_age ∧ m.metabolic_age ≤ 80 :=
  analyze_clamped_metrics_in_range 180 30 "male" dataW80 (by norm_num) (by norm_num)
    (by norm_num) (Or.inl rfl) (by rw [dataW80_len])
    (by rw [dataW80_weight]; norm_num) (by rw [dataW80_weight]; norm_num)
    (by rw [dataW80_imp]; norm_num)

/-! ### Claim C2 -/

/-- Claim C2 (amended): in `getWaterPercentage`, whenever the product
`w * coefficient` (with `w = (100 - fat) * 0.7` and `coefficient = 1.02` if
`w ≤ 50` else `0.98`) is at least 65, the coefficient is necessarily `0.98`
(for `w ≤ 50` the product is at most 51), and the returned water percentage
is `clamp(75 * 0.98) = 73.5` — not 75, because the forced value 75 is
multiplied by the coefficient again before clamping. -/
theorem water_force_amended (s : DataAnalyzer) (fat : ℚ)
    (hf : getFatPercentage s = some fat)
    (hprod : 65 ≤ ((100 - fat) * 0.7) *
      (if (100 - fat) * 0.7 ≤ 50 then 1.02 else 0.98)) :
    getWaterPercentage s = some (147 / 2) := by
  have hgt50 : ¬ ((100 - fat) * 0.7 ≤ 50) := by
    intro hle
    rw [if_pos hle] at hprod
    nlinarith
  rw [if_neg hgt50] at hprod
  simp only [getWaterPercentage, hf, Option.map_some']
  rw [if_neg hgt50, if_pos (show (100 - fat) * 0.7 * 0.98 ≥ 65 from hprod)]
  norm_num [checkValueOverflow]

/-- Counterexample for C2 as stated: at the validated input height 220,
age 0, male, weight 80 kg, impedance 0 (the packet `dataW80`), the fat
percentage clamps to 5, the product is `66.5 * 0.98 = 65.17 ≥ 65`, and the
returned water percentage is `73.5`, not the claimed 75. -/
theorem water_force_counterexample :
    getFatPercentage waterCexState = some 5 ∧
    65 ≤ ((100 - (5 : ℚ)) * 0.7) *
      (if (100 - (5 : ℚ)) * 0.7 ≤ 50 then 1.02 else 0.98) ∧
    (analyze 220 0 "male" dataW80).waterPct = some (147 / 2) ∧
    (147 / 2 : ℚ) ≠ 75 := by
  refine ⟨?_, ?_, ?_, by norm_num⟩
  · simp only [waterCexState, getFatPercentage, getLBMCoefficient, pydiv,
      checkValueOverflow]
    simp
    try norm_num
  · rw [if_neg (by norm_num : ¬ ((100 - (5 : ℚ)) * 0.7 ≤ 50))]
    norm_num
  · have hl : ¬ dataW80.length < 13 := by decide
    simp only [analyze, dataW80_weight, dataW80_imp, if_neg hl]
    norm_num
    simp only [calculate_metrics, getFatPercentage, getWaterPercentage, getMuscleMass,
      getVisceralFat, getBMI, getLBMCoefficient, getBoneMass, getBMR, getIdealWeight,
      getMetabolicAge, pydiv, checkValueOverflow]
    simp
    norm_num [AnalyzeResult.waterPct, round2, roundHalfEven]

/-! ### Claim C3 -/

/-- Claim C3 (amended): for every packet of length at least 13 whose bytes
at offsets 9, 10, 11, 12 are `0xF4, 0x01, 0x40, 0x3E`, the decoder produces
`impedance = 500` and `weight = 0x3E40 / 200 = 15936 / 200 = 79.68` kg
(`1992/25`), not 80.0 as the specification's example computes. -/
theorem decode_fixed_packet (data : List ℕ) (hlen : 13 ≤ data.length)
    (h9 : data.getD 9 0 = 244) (h10 : data.getD 10 0 = 1)
    (h11 : data.getD 11 0 = 64) (h12 : data.getD 12 0 = 62) :
    decodeImpedance data = 500 ∧ decodeWeight data = 1992 / 25 := by
  constructor
  · rw [decodeImpedance, h9, h10]
    decide
  · rw [decodeWeight, decodeWeightRaw, h11, h12]
    have h : ((62 : ℕ) &&& 255) <<< 8 ||| 64 &&& 255 = 15936 := by decide
    rw [h]
    norm_num

/-- Witness for C3 at the concrete packet `dataF4`. -/
theorem decode_fixed_packet_witness :
    decodeImpedance dataF4 = 500 ∧ decodeWeight dataF4 = 1992 / 25 :=
  decode_fixed_packet dataF4 (by decide) (by decide) (by decide) (by decide) (by decide)

/-- Counterexample for C3 as stated: on the packet with bytes
`0xF4, 0x01, 0x40, 0x3E` at offsets 9..12 the decoded weight is
`79.68 = 1992/25`, which is not the claimed `80.0`
(`0x3E40 = 15936` and `15936 / 200 = 79.68`). -/
theorem decode_fixed_packet_counterexample :
    decodeImpedance dataF4 = 500 ∧ decodeWeight dataF4 = 1992 / 25 ∧
    (1992 / 25 : ℚ) ≠ 80 := by
  refine ⟨by decide, dataF4_weight, by norm_num⟩

/-! ### Claim C4 -/

/-- Claim C4 (amended): for every packet of length at least 13, `analyze`
returns `None` (the `OutOfRange`-style failure) exactly when
`height > 220`, or the decoded weight is outside `[10, 200]`, or
`age > 99`, or the decoded impedance exceeds 3000; when none of those hold
and additionally `height ≠ 0`, it returns a metrics result (at `height = 0`
the BMI computation divides by zero instead of failing validation). -/
theorem analyze_failure_iff (hgt : ℤ) (age : ℚ) (sex : String)
    (data : List ℕ) (hlen : 13 ≤ data.length) :
    (analyze (hgt : ℚ) age sex data = .invalid ↔
      ((hgt : ℚ) > 220 ∨ decodeWeight data < 10 ∨ decodeWeight data > 200 ∨
        age > 99 ∨ (decodeImpedance data : ℚ) > 3000)) ∧
    (¬ ((hgt : ℚ) > 220 ∨ decodeWeight data < 10 ∨ decodeWeight data > 200 ∨
        age > 99 ∨ (decodeImpedance data : ℚ) > 3000) → hgt ≠ 0 →
      (analyze (hgt : ℚ) age sex data).isMetrics = true) := by
  have h1 : ¬ data.length < 13 := by omega
  constructor
  · simp only [analyze, if_neg h1]
    constructor
    · intro hinv
      by_contra hnc
      push_neg at hnc
      obtain ⟨c1, c2, c3, c4, c5⟩ := hnc
      rw [if_neg (not_lt.mpr c1), if_neg (by push_neg; exact ⟨c2, c3⟩),
        if_neg (not_lt.mpr c4), if_neg (not_lt.mpr c5)] at hinv
      rcases hm : calculate_metrics
          ⟨(hgt : ℚ), age, sex, decodeWeight data, (decodeImpedance data : ℚ)⟩ with _ | m
      · rw [hm] at hinv
        simp at hinv
      · rw [hm] at hinv
        simp at hinv
    · intro hc
      split_ifs with a b cc d
      · rfl
      · rfl
      · rfl
      · rfl
      · exfalso
        rcases hc with c | c | c | c | c
        · exact a c
        · exact b (Or.inl c)
        · exact b (Or.inr c)
        · exact cc c
        · exact d c
  · intro hc hne
    push_neg at hc
    obtain ⟨c1, c2, c3, c4, c5⟩ := hc
    obtain ⟨m, hm, _⟩ := analyze_ranges_aux hgt age sex data hlen
      (by exact_mod_cast c1) hne c2 c3 c4 (by exact_mod_cast c5)
    rw [hm]
    rfl

/-- Witness for C4 at height 180, age 30, male, and the packet decoding to
weight 80 kg and impedance 0: no failure condition holds and a metrics
result is returned. -/
theorem analyze_failure_iff_witness :
    (analyze ((180 : ℤ) : ℚ) 30 "male" dataW80).isMetrics = true :=
  (analyze_failure_iff 180 30 "male" dataW80 (by rw [dataW80_len])).2
    (by
      push_neg
      rw [dataW80_weight, dataW80_imp]
      norm_num)
    (by norm_num)

/-- Counterexample for C4 as stated: at height 0, age 30, male and the
packet decoding to weight 80 kg and impedance 0, none of the four failure
conditions holds, yet `analyze` raises a division-by-zero error instead of
returning a metrics result. -/
theorem analyze_failure_iff_counterexample :
    analyze 0 30 "male" dataW80 = .zeroDiv ∧
    ¬ ((0 : ℚ) > 220 ∨ decodeWeight dataW80 < 10 ∨ decodeWeight dataW80 > 200 ∨
      (30 : ℚ) > 99 ∨ (decodeImpedance dataW80 : ℚ) > 3000) ∧
    13 ≤ dataW80.length := by
  refine ⟨?_, ?_, by rw [dataW80_len]⟩
  · have hl : ¬ dataW80.length < 13 := by decide
    simp only [analyze, dataW80_weight, dataW80_imp, if_neg hl]
    norm_num
    simp only [calculate_metrics, getFatPercentage, getWaterPercentage, getMuscleMass,
      getVisceralFat, getBMI, getLBMCoefficient, getBoneMass, getBMR, getIdealWeight,
      getMetabolicAge, pydiv, checkValueOverflow]
    simp
    try norm_num
  · push_neg
    rw [dataW80_weight, dataW80_imp]
    norm_num

/-! ### Claim C5 -/

/-- Claim C5 (amended): the analyzer does not validate non-positive
heights.  For every integer height strictly below 0 and every packet of
length at least 13 with in-range weight, age and impedance, `analyze`
returns a metrics result; only at height exactly 0 does the analysis
produce no metrics, and then by an uncaught division by zero in the BMI
step (`weight / ((height/100) * (height/100))`), not by validation. -/
theorem analyze_nonpositive_height (hgt : ℤ) (age : ℚ) (sex : String)
    (data : List ℕ) (hlen : 13 ≤ data.length) (hwlo : 10 ≤ decodeWeight data)
    (hwhi : decodeWeight data ≤ 200) (hage : age ≤ 99)
    (himp : decodeImpedance data ≤ 3000) :
    (hgt < 0 → (analyze (hgt : ℚ) age sex data).isMetrics = true) ∧
    (hgt = 0 → analyze (hgt : ℚ) age sex data = .zeroDiv) := by
  constructor
  · intro hneg
    obtain ⟨m, hm, _⟩ := analyze_ranges_aux hgt age sex data hlen (by omega)
      (by omega) hwlo hwhi hage himp
    rw [hm]
    rfl
  · intro h0
    subst h0
    have h1 : ¬ data.length < 13 := by omega
    have h2 : ¬ (((0 : ℤ) : ℚ) > 220) := by norm_num
    have h3 : ¬ (decodeWeight data < 10 ∨ decodeWeight data > 200) := by
      push_neg
      exact ⟨hwlo, hwhi⟩
    have h4 : ¬ (age > 99) := not_lt.mpr hage
    have h5 : ¬ ((decodeImpedance data : ℚ) > 3000) := by
      rw [not_lt]
      exact_mod_cast himp
    have hwne : decodeWeight data ≠ 0 := by
      intro hz
      rw [hz] at hwlo
      norm_num at hwlo
    simp only [analyze, if_neg h1, if_neg h2, if_neg h3, if_neg h4, if_neg h5]
    rw [calculate_metrics_none_of_bmi
      ⟨((0 : ℤ) : ℚ), age, sex, decodeWeight data, (decodeImpedance data : ℚ)⟩
      hwne (fun _ _ => by norm_num) (by norm_num [getBMI, pydiv])]

/-- Witness for C5 at height `-5`, age 30, male, and the packet decoding to
weight 80 kg and impedance 0. -/
theorem analyze_nonpositive_height_witness :
    (((-5 : ℤ) < 0 → (analyze ((-5 : ℤ) : ℚ) 30 "male" dataW80).isMetrics = true) ∧
     ((-5 : ℤ) = 0 → analyze ((-5 : ℤ) : ℚ) 30 "male" dataW80 = .zeroDiv)) :=
  analyze_nonpositive_height (-5) 30 "male" dataW80 (by rw [dataW80_len])
    (by rw [dataW80_weight]; norm_num) (by rw [dataW80_weight]; norm_num)
    (by norm_num) (by rw [dataW80_imp]; norm_num)

/-- Counterexample for C5 as stated: the profile height `-170` is
non-positive and the packet decodes to in-range weight 80 kg, impedance 0
(with age 30), yet `analyze` does return a metrics result. -/
theorem analyze_nonpositive_height_counterexample :
    (analyze (-170) 30 "male" dataW80).isMetrics = true ∧
    (-170 : ℚ) ≤ 0 ∧ 13 ≤ dataW80.length ∧ 10 ≤ decodeWeight dataW80 ∧
    decodeWeight dataW80 ≤ 200 ∧ (30 : ℚ) ≤ 99 ∧
    (decodeImpedance dataW80 : ℚ) ≤ 3000 := by
  refine ⟨?_, by norm_num, by rw [dataW80_len], by rw [dataW80_weight]; norm_num,
    by rw [dataW80_weight]; norm_num, by norm_num, by rw [dataW80_imp]; norm_num⟩
  have hl : ¬ dataW80.length < 13 := by decide
  simp only [analyze, dataW80_weight, dataW80_imp, if_neg hl]
  norm_num
  simp only [calculate_metrics, getFatPercentage, getWaterPercentage, getMuscleMass,
    getVisceralFat, getBMI, getLBMCoefficient, getBoneMass, getBMR, getIdealWeight,
    getMetabolicAge, pydiv, checkValueOverflow]
  simp
  norm_num [AnalyzeResult.isMetrics]

/-! ### Claim C6 -/

/-- Claim C6: when the raw packet equals the previously accepted packet,
the cycle short-circuits — nothing is persisted and the cache is returned
unchanged; consequently, if a cycle persisted a record for packet `d`, a
second consecutive cycle receiving the identical `d` (with the cache now
`some d`) persists nothing, so two identical submissions append exactly one
record. -/
theorem duplicate_packet_single_persist (identify : ℚ → String)
    (getUser : String → Option UserProfile) (today : PDate)
    (d : List ℕ) (c0 : Option (List ℕ)) :
    (process_measurement identify getUser today (some d) (some d) =
      .ret (some d) none) ∧
    (∀ m u, process_measurement identify getUser today (some d) c0 =
        .ret (some d) (some (m, u)) →
      process_measurement identify getUser today (some d) (some d) =
        .ret (some d) none) := by
  have hp : process_measurement identify getUser today (some d) (some d) =
      .ret (some d) none := by
    by_cases hd : d = []
    · simp only [process_measurement, if_pos hd]
    · simp only [process_measurement, if_neg hd, if_pos rfl, if_true]
  exact ⟨hp, fun _ _ _ => hp⟩

/-- Witness for C6: resubmitting the concrete packet `dataW80` while it is
the cached packet returns the unchanged cache and persists nothing. -/
theorem duplicate_packet_single_persist_witness :
    process_measurement (fun _ => "A") (fun _ => none) ⟨2026, 1, 1⟩
      (some dataW80) (some dataW80) = .ret (some dataW80) none :=
  (duplicate_packet_single_persist (fun _ => "A") (fun _ => none) ⟨2026, 1, 1⟩
    dataW80 none).1

/-! ### Claim C9 -/

/-- Claim C9: whenever `process_measurement` returns, the cache it hands
back is the new raw packet exactly when a record was persisted in that
cycle; in every other returning outcome (no packet, empty packet,
duplicate, default analysis failed, personalized re-analysis failed) the
previous cache value comes back unchanged with nothing persisted, so a
packet whose analysis failed is not suppressed as a duplicate on the next
cycle. -/
theorem cache_updated_iff_persisted (identify : ℚ → String)
    (getUser : String → Option UserProfile) (today : PDate)
    (raw cache c : Option (List ℕ)) (s : Option (Metrics × String)) :
    process_measurement identify getUser today raw cache = .ret c s →
    ((s = none ∧ c = cache) ∨ (s ≠ none ∧ c = raw ∧ raw ≠ cache)) := by
  intro h
  rcases raw with _ | d
  · simp only [process_measurement] at h
    injection h with h1 h2
    exact Or.inl ⟨h2.symm, h1.symm⟩
  · simp only [process_measurement] at h
    by_cases hd : d = []
    · rw [if_pos hd] at h
      injection h with h1 h2
      exact Or.inl ⟨h2.symm, h1.symm⟩
    rw [if_neg hd] at h
    by_cases hdup : some d = cache
    · rw [if_pos hdup] at h
      injection h with h1 h2
      exact Or.inl ⟨h2.symm, h1.symm⟩
    rw [if_neg hdup] at h
    rcases hA : analyze DEFAULT_HEIGHT DEFAULT_AGE DEFAULT_SEX d with temp | _ | _
    · simp only [hA] at h
      rcases hG : getUser (identify temp.weight) with _ | p
      · simp only [hG] at h
        injection h with h1 h2
        refine Or.inr ⟨?_, h1.symm, hdup⟩
        rw [← h2]
        exact Option.some_ne_none _
      · simp only [hG] at h
        rcases hA2 : analyze (p.height : ℚ) ((resolveAge today p : ℤ) : ℚ) p.sex d
          with m | _ | _
        · simp only [hA2] at h
          injection h with h1 h2
          refine Or.inr ⟨?_, h1.symm, hdup⟩
          rw [← h2]
          exact Option.some_ne_none _
        · simp only [hA2] at h
          injection h with h1 h2
          exact Or.inl ⟨h2.symm, h1.symm⟩
        · simp only [hA2] at h
          simp at h
    · simp only [hA] at h
      injection h with h1 h2
      exact Or.inl ⟨h2.symm, h1.symm⟩
    · simp only [hA] at h
      simp at h

/-- Witness for C9 at the no-packet outcome: the previous cache comes back
unchanged and nothing is persisted. -/
theorem cache_updated_iff_persisted_witness :
    (((none : Option (Metrics × String)) = none ∧
        (some [1] : Option (List ℕ)) = some [1]) ∨
      ((none : Option (Metrics × String)) ≠ none ∧
        (some [1] : Option (List ℕ)) = none ∧
        (none : Option (List ℕ)) ≠ some [1])) :=
  cache_updated_iff_persisted (fun _ => "A") (fun _ => none) ⟨2026, 1, 1⟩
    none (some [1]) (some [1]) none rfl

/-! ### Claim C7 -/

/-- Claim C7: `identify_user` returns the username minimising the score
`abs(weight - mean) / std` over the stats mapping, ties resolved in favour
of the first username in iteration order; on the two-user example
`A -> (70, 5)`, `B -> (90, 5)` it identifies weight 69 as `A` (scores
`0.2` against `4.2`); and on an empty stats mapping it returns
`"Default User"`. -/
theorem identify_user_minimum_score (stats : List (String × ℚ × ℚ)) (w : ℚ) :
    (stats = [] → identify_user stats w = DEFAULT_USER) ∧
    (stats ≠ [] → ∃ p l₁ l₂, calculate_scores stats w = l₁ ++ p :: l₂ ∧
      identify_user stats w = p.1 ∧
      (∀ q ∈ l₁, p.2 < q.2) ∧
      (∀ q ∈ calculate_scores stats w, p.2 ≤ q.2)) ∧
    identify_user [("A", 70, 5), ("B", 90, 5)] 69 = "A" ∧
    calculate_scores [("A", 70, 5), ("B", 90, 5)] 69 = [("A", 1/5), ("B", 21/5)] := by
  refine ⟨?_, ?_, ?_, ?_⟩
  · intro h
    subst h
    rfl
  · intro hne
    rcases stats with _ | ⟨s0, rest⟩
    · exact absurd rfl hne
    · have hcs : calculate_scores (s0 :: rest) w =
          (s0.1, |(w - s0.2.1) / s0.2.2|) :: calculate_scores rest w := rfl
      obtain ⟨l₁, l₂, he, hlt, hle⟩ :=
        minBySnd_decomp (calculate_scores rest w) (s0.1, |(w - s0.2.1) / s0.2.2|)
      refine ⟨minBySnd (calculate_scores rest w) (s0.1, |(w - s0.2.1) / s0.2.2|),
        l₁, l₂, ?_, rfl, hlt, ?_⟩
      · rw [hcs]
        exact he
      · intro q hq
        rw [hcs] at hq
        exact hle q hq
  · show (minBySnd [("B", |((69 : ℚ) - 90) / 5|)] ("A", |((69 : ℚ) - 70) / 5|)).1 = "A"
    norm_num [minBySnd, abs]
  · show [("A", |((69 : ℚ) - 70) / 5|), ("B", |((69 : ℚ) - 90) / 5|)] =
      [("A", 1/5), ("B", 21/5)]
    norm_num [abs]

/-- Witness for C7: the empty-stats branch returns the default username. -/
theorem identify_user_minimum_score_witness :
    identify_user [] 70 = DEFAULT_USER :=
  (identify_user_minimum_score [] 70).1 rfl

/-! ### Claim C8 -/

/-- Claim C8 (amended): for every username in the profile list, fewer than
2 history rows for that username yield exactly the fallback `(70.0, 5.0)`,
and 2 or more rows yield the mean and the sample standard deviation floored
at `0.1`; when the profile list is empty the computation runs with the
single synthetic username `"Default User"`, which receives the same
treatment — so the result is the single entry
`"Default User" -> (70.0, 5.0)` only when fewer than 2 history rows carry
`"Default User"`. -/
theorem user_stats_fallback_and_floor (usernames : List String)
    (history : List Row) :
    (usernames = [] → (userWeights history DEFAULT_USER).length < 2 →
      get_user_stats usernames history = [(DEFAULT_USER, (70 : ℚ), (5 : ℝ))]) ∧
    (∀ u ∈ usernames, (userWeights history u).length < 2 →
      (u, (70 : ℚ), (5 : ℝ)) ∈ get_user_stats usernames history) ∧
    (∀ u ∈ usernames, 2 ≤ (userWeights history u).length →
      (u, listMean (userWeights history u),
        max (sampleStd (userWeights history u)) 0.1) ∈
        get_user_stats usernames history) := by
  have hmax : ∀ r : ℝ, (if r < 0.1 then (0.1 : ℝ) else r) = max r 0.1 := by
    intro r
    split_ifs with h
    · exact (max_eq_right (le_of_lt h)).symm
    · exact (max_eq_left (not_lt.mp h)).symm
  refine ⟨?_, ?_, ?_⟩
  · intro he hlt
    subst he
    simp only [get_user_stats, List.isEmpty_nil, if_true, List.map_cons, List.map_nil]
    rw [if_neg (not_le.mpr hlt)]
  · intro u hu hlt
    have hne : usernames.isEmpty = false := by
      cases usernames
      · simp at hu
      · rfl
    simp only [get_user_stats, hne, Bool.false_eq_true, if_false]
    refine List.mem_map.mpr ⟨u, hu, ?_⟩
    simp only [if_neg (not_le.mpr hlt)]
  · intro u hu hge
    have hne : usernames.isEmpty = false := by
      cases usernames
      · simp at hu
      · rfl
    simp only [get_user_stats, hne, Bool.false_eq_true, if_false]
    refine List.mem_map.mpr ⟨u, hu, ?_⟩
    simp only [if_pos hge]
    rw [hmax]

/-- Witness for C8: a single profile `"A"` with no history rows receives
the fallback statistics `(70.0, 5.0)`. -/
theorem user_stats_fallback_and_floor_witness :
    ("A", (70 : ℚ), (5 : ℝ)) ∈ get_user_stats ["A"] [] :=
  (user_stats_fallback_and_floor ["A"] []).2.1 "A" (List.mem_singleton.mpr rfl)
    (by simp [userWeights])

/-- Counterexample for C8 as stated: with an empty profile list but two
history rows carrying `"Default User"` (weights 70 and 80), the result is
not the claimed single entry `("Default User", 70.0, 5.0)` — the code
computes real statistics (mean 75, standard deviation `sqrt 50`) for the
synthetic default username. -/
theorem user_stats_empty_profiles_counterexample :
    get_user_stats [] defaultUserRows ≠ [(DEFAULT_USER, (70 : ℚ), (5 : ℝ))] ∧
    2 ≤ (userWeights defaultUserRows DEFAULT_USER).length := by
  have hw : userWeights defaultUserRows DEFAULT_USER = [70, 80] := by
    simp [userWeights, defaultUserRows, DEFAULT_USER]
  refine ⟨?_, by rw [hw]; norm_num⟩
  have hvar : sampleVar [(70 : ℚ), 80] = 50 := by
    simp [sampleVar, listMean]
    norm_num
  have hstd : ¬ (sampleStd [(70 : ℚ), 80] < 0.1) := by
    rw [not_lt, sampleStd, hvar]
    apply Real.le_sqrt_of_sq_le
    norm_num
  have hc : get_user_stats [] defaultUserRows =
      [(DEFAULT_USER, (75 : ℚ), sampleStd [(70 : ℚ), 80])] := by
    simp only [get_user_stats, List.isEmpty_nil, if_true, List.map_cons, List.map_nil, hw]
    rw [if_pos (by norm_num), if_neg hstd]
    norm_num [listMean]
  intro h
  rw [hc] at h
  simp only [List.cons.injEq, Prod.mk.injEq] at h
  have h75 : (75 : ℚ) = 70 := h.1.2.1
  norm_num at h75

/-! ### Claim C10 -/

/-- Claim C10: `calculate_age` never fails and never yields a negative age:
it returns `max 0 (computed age)` for every string parsing as a well-formed
date, returns 0 for every string that does not, and consequently the
personalized re-analysis runs with age 0 — identical to an analysis at age
0, which passes the `age > 99` check — instead of signalling an error when
a profile's birthdate is malformed. -/
theorem calculate_age_total_nonnegative (today : PDate) (s : String) :
    0 ≤ calculate_age today s ∧
    (parseDate s = none → calculate_age today s = 0) ∧
    (∀ b, parseDate s = some b → calculate_age today s =
      max 0 ((today.year : ℤ) - (b.year : ℤ) -
        (if today.month < b.month ∨ (today.month = b.month ∧ today.day < b.day)
          then 1 else 0))) ∧
    (parseDate s = none → ∀ (hgt : ℚ) (sx : String) (data : List ℕ),
      analyze hgt ((calculate_age today s : ℤ) : ℚ) sx data =
        analyze hgt 0 sx data) ∧
    (parseDate s = none → ¬ (((calculate_age today s : ℤ) : ℚ) > 99)) := by
  refine ⟨?_, ?_, ?_, ?_, ?_⟩
  · rcases hp : parseDate s with _ | b
    · simp [calculate_age, hp]
    · simp only [calculate_age, hp]
      exact le_max_left 0 _
  · intro hp
    simp [calculate_age, hp]
  · intro b hp
    simp only [calculate_age, hp]
    split_ifs with hcond
    · rfl
    · norm_num
  · intro hp hgt sx data
    have h0 : calculate_age today s = 0 := by simp [calculate_age, hp]
    rw [h0]
    norm_num
  · intro hp
    have h0 : calculate_age today s = 0 := by simp [calculate_age, hp]
    rw [h0]
    norm_num

/-- Witness for C10 at today 2026-10-12 and the malformed birthdate string
`"oops"`. -/
theorem calculate_age_total_nonnegative_witness :
    calculate_age ⟨2026, 10, 12⟩ "oops" = 0 :=
  (calculate_age_total_nonnegative ⟨2026, 10, 12⟩ "oops").2.1 (by decide)

/-- Witness for C2 at the validated input height 220, age 0, male,
weight 80, impedance 0: the fat percentage clamps to 5, the product is at
least 65, and the returned water percentage is `73.5`. -/
theorem water_force_amended_witness :
    getWaterPercentage waterCexState = some (147 / 2) :=
  water_force_amended waterCexState 5
    (by
      simp only [waterCexState, getFatPercentage, getLBMCoefficient, pydiv,
        checkValueOverflow]
      simp
      try norm_num)
    (by
      rw [if_neg (by norm_num : ¬ ((100 - (5 : ℚ)) * 0.7 ≤ 50))]
      norm_num)
